import Mathlib

/-!
Shallow embedding of `src/cyColor.h` (cyCodeBase color classes).

Modelling conventions:
* C++ `float` values are modelled as exact rationals `ℚ`; the float literals
  of the source (`0.5f`, `255`, `12.92f`, `0.0031308f`, ...) are taken at their
  exact decimal values.
* `powf` is transcendental; it is modelled as an abstract parameter
  `pw : ℚ → ℚ → ℚ` passed to the functions that call it, so every statement
  about those functions holds for any implementation of `powf`.
* C++ `uint8_t` is modelled as `Fin 256`; the narrowing cast
  `static_cast<uint8_t>` is modelled faithfully as reduction `% 256`.
* C++ `int` is modelled as `ℤ` (or `ℕ` where the source value is provably
  non-negative); the float-to-int cast truncates toward zero.
* Mutating member functions are modelled as functions returning the updated
  value.
-/

set_option autoImplicit false

namespace CyColor

/-- Truncation toward zero of a rational, the semantics of the C++ cast
`int(x)` from a floating-point value. -/
def truncQ (x : ℚ) : ℤ := if 0 ≤ x then ⌊x⌋ else ⌈x⌉

/-- Modelled from the spec: `cy::Max` from `cyCore.h` (not under `src/`);
per the spec, `ClampMin`/`ClampMax` "apply elementwise max/min against a
bound", so `cy::Max` is the binary maximum. -/
def cyMax (a b : ℚ) : ℚ := max a b

/-- Modelled from the spec: `cy::Min` from `cyCore.h` (not under `src/`);
the binary minimum. -/
def cyMin (a b : ℚ) : ℚ := min a b

/-- RGB color class with 3 float components (`class Color`, cyColor.h:53). -/
structure Color where
  r : ℚ
  g : ℚ
  b : ℚ
deriving DecidableEq

/-- RGBA color class with 4 float components (`class ColorA`, cyColor.h:149). -/
structure ColorA where
  r : ℚ
  g : ℚ
  b : ℚ
  a : ℚ
deriving DecidableEq

/-- 24-bit RGB color class with 3 unsigned byte components
(`class Color24`, cyColor.h:245). -/
structure Color24 where
  r : Fin 256
  g : Fin 256
  b : Fin 256
deriving DecidableEq

/-- 32-bit RGBA color class with 4 unsigned byte components
(`class Color32`, cyColor.h:306). -/
structure Color32 where
  r : Fin 256
  g : Fin 256
  b : Fin 256
  a : Fin 256
deriving DecidableEq

/-! ### Color24 / Color32 byte machinery (cyColor.h:297-299, 358-360) -/

/-- `Color24::ClampInt` (cyColor.h:299):
`v<0 ? 0 : (v>255 ? 255 : static_cast<uint8_t>(v))`. -/
def Color24.ClampInt (v : ℤ) : Fin 256 :=
  if v < 0 then ⟨0, by norm_num⟩ else if v > 255 then ⟨255, by norm_num⟩
  else ⟨v.toNat % 256, Nat.mod_lt _ (by norm_num)⟩

/-- `Color24::FloatToByte` (cyColor.h:298): `ClampInt(int(r*255+0.5f))`. -/
def Color24.FloatToByte (r : ℚ) : Fin 256 := Color24.ClampInt (truncQ (r * 255 + 0.5))

/-- `Color32::ClampInt` (cyColor.h:360), textually identical to
`Color24::ClampInt`. -/
def Color32.ClampInt (v : ℤ) : Fin 256 :=
  if v < 0 then ⟨0, by norm_num⟩ else if v > 255 then ⟨255, by norm_num⟩
  else ⟨v.toNat % 256, Nat.mod_lt _ (by norm_num)⟩

/-- `Color32::FloatToByte` (cyColor.h:359), textually identical to
`Color24::FloatToByte`. -/
def Color32.FloatToByte (r : ℚ) : Fin 256 := Color32.ClampInt (truncQ (r * 255 + 0.5))

/-! ### Color24 members (cyColor.h:245-300) -/

/-- Constructor `Color24(Color const &c)` (cyColor.h:256). -/
def Color24.ofColor (c : Color) : Color24 :=
  ⟨Color24.FloatToByte c.r, Color24.FloatToByte c.g, Color24.FloatToByte c.b⟩

/-- Constructor `Color24(ColorA const &c)` (cyColor.h:257). -/
def Color24.ofColorA (c : ColorA) : Color24 :=
  ⟨Color24.FloatToByte c.r, Color24.FloatToByte c.g, Color24.FloatToByte c.b⟩

/-- Constructor `Color24(Color32 const &c)` (cyColor.h:392):
copies the r, g, b bytes. -/
def Color24.ofColor32 (c : Color32) : Color24 := ⟨c.r, c.g, c.b⟩

/-- `Color24::ToColor` (cyColor.h:261): `Color(r/255.0f, g/255.0f, b/255.0f)`. -/
def Color24.ToColor (c : Color24) : Color :=
  ⟨(c.r.val : ℚ) / 255, (c.g.val : ℚ) / 255, (c.b.val : ℚ) / 255⟩

/-- `Color24::ToColorA` (cyColor.h:262):
`ColorA(r/255.0f, g/255.0f, b/255.0f, 1.0f)`. -/
def Color24.ToColorA (c : Color24) : ColorA :=
  ⟨(c.r.val : ℚ) / 255, (c.g.val : ℚ) / 255, (c.b.val : ℚ) / 255, 1⟩

/-- `Color24::Sum` (cyColor.h:272): `int(r) + int(g) + int(b)`; the value is
non-negative, so it is modelled in `ℕ`. -/
def Color24.Sum (c : Color24) : ℕ := c.r.val + c.g.val + c.b.val

/-- `Color24::Gray` (cyColor.h:273): `uint8_t( (Sum()+1) / 3 )`; the
`uint8_t` cast is modelled as `% 256`. -/
def Color24.Gray (c : Color24) : Fin 256 :=
  ⟨((c.Sum + 1) / 3) % 256, Nat.mod_lt _ (by norm_num)⟩

/-- `Color24::Min` (cyColor.h:274): `r<g ? (r<b ? r : b) : (g<b ? g : b)`. -/
def Color24.Min (c : Color24) : Fin 256 :=
  if c.r < c.g then (if c.r < c.b then c.r else c.b) else (if c.g < c.b then c.g else c.b)

/-- `Color24::Max` (cyColor.h:275): `r>g ? (r>b ? r : b) : (g>b ? g : b)`. -/
def Color24.Max (c : Color24) : Fin 256 :=
  if c.r > c.g then (if c.r > c.b then c.r else c.b) else (if c.g > c.b then c.g else c.b)

/-- `Color24::operator==` (cyColor.h:286): `(c.r==r) && (c.g==g) && (c.b==b)`. -/
def Color24.beq (self c : Color24) : Bool :=
  (c.r == self.r) && (c.g == self.g) && (c.b == self.b)

/-- `Color24::operator!=` (cyColor.h:287): `(c.r!=r) || (c.g!=g) || (c.b!=b)`. -/
def Color24.bneq (self c : Color24) : Bool :=
  (c.r != self.r) || (c.g != self.g) || (c.b != self.b)

/-! ### Color32 members (cyColor.h:306-361) -/

/-- Constructor `Color32(Color const &c, float _a=1.0f)` (cyColor.h:317). -/
def Color32.ofColor (c : Color) (al : ℚ := 1) : Color32 :=
  ⟨Color32.FloatToByte c.r, Color32.FloatToByte c.g, Color32.FloatToByte c.b,
   Color32.FloatToByte al⟩

/-- Constructor `Color32(ColorA const &c)` (cyColor.h:318): every component,
the alpha included, goes through `FloatToByte`. -/
def Color32.ofColorA (c : ColorA) : Color32 :=
  ⟨Color32.FloatToByte c.r, Color32.FloatToByte c.g, Color32.FloatToByte c.b,
   Color32.FloatToByte c.a⟩

/-- Constructor `Color32(Color24 const &c, uint8_t _a=255)` (cyColor.h:319):
copies the r, g, b bytes and sets the given alpha byte. -/
def Color32.ofColor24 (c : Color24) (al : Fin 256 := 255) : Color32 :=
  ⟨c.r, c.g, c.b, al⟩

/-- `Color32::ToColor` (cyColor.h:322): `Color(r/255.0f, g/255.0f, b/255.0f)`. -/
def Color32.ToColor (c : Color32) : Color :=
  ⟨(c.r.val : ℚ) / 255, (c.g.val : ℚ) / 255, (c.b.val : ℚ) / 255⟩

/-- `Color32::ToColorA` (cyColor.h:323):
`ColorA(r/255.0f, g/255.0f, b/255.0f, a/255.0f)`. -/
def Color32.ToColorA (c : Color32) : ColorA :=
  ⟨(c.r.val : ℚ) / 255, (c.g.val : ℚ) / 255, (c.b.val : ℚ) / 255, (c.a.val : ℚ) / 255⟩

/-- `Color32::Sum` (cyColor.h:333): `int(r) + int(g) + int(b)` (alpha
excluded); non-negative, so modelled in `ℕ`. -/
def Color32.Sum (c : Color32) : ℕ := c.r.val + c.g.val + c.b.val

/-- `Color32::Gray` (cyColor.h:334): `uint8_t( (Sum()+1) / 3 )`. -/
def Color32.Gray (c : Color32) : Fin 256 :=
  ⟨((c.Sum + 1) / 3) % 256, Nat.mod_lt _ (by norm_num)⟩

/-- `Color32::Min` (cyColor.h:335):
`mrg = r<g ? r : g; mba = b<a ? b : a; mrg<mba ? mrg : mba`. -/
def Color32.Min (c : Color32) : Fin 256 :=
  let mrg := if c.r < c.g then c.r else c.g
  let mba := if c.b < c.a then c.b else c.a
  if mrg < mba then mrg else mba

/-- `Color32::Max` (cyColor.h:336):
`mrg = r>g ? r : g; mba = b>a ? b : a; mrg>mba ? mrg : mba`. -/
def Color32.Max (c : Color32) : Fin 256 :=
  let mrg := if c.r > c.g then c.r else c.g
  let mba := if c.b > c.a then c.b else c.a
  if mrg > mba then mrg else mba

/-- `Color32::operator==` (cyColor.h:347). -/
def Color32.beq (self c : Color32) : Bool :=
  (c.r == self.r) && (c.g == self.g) && (c.b == self.b) && (c.a == self.a)

/-- `Color32::operator!=` (cyColor.h:348). -/
def Color32.bneq (self c : Color32) : Bool :=
  (c.r != self.r) || (c.g != self.g) || (c.b != self.b) || (c.a != self.a)

/-! ### Color members (cyColor.h:53-143) -/

/-- `Color::Sum` (cyColor.h:82): `r + g + b`. -/
def Color.Sum (c : Color) : ℚ := c.r + c.g + c.b

/-- `Color::Gray` (cyColor.h:83): `Sum() / 3.0f`. -/
def Color.Gray (c : Color) : ℚ := c.Sum / 3

/-- `Color::Min` (cyColor.h:86): `r<g ? (r<b ? r : b) : (g<b ? g : b)`. -/
def Color.Min (c : Color) : ℚ :=
  if c.r < c.g then (if c.r < c.b then c.r else c.b) else (if c.g < c.b then c.g else c.b)

/-- `Color::Max` (cyColor.h:87): `r>g ? (r>b ? r : b) : (g>b ? g : b)`. -/
def Color.Max (c : Color) : ℚ :=
  if c.r > c.g then (if c.r > c.b then c.r else c.b) else (if c.g > c.b then c.g else c.b)

/-- Template member `Color::Apply` (cyColor.h:99):
`r=func(r); g=func(g); b=func(b)`. -/
def Color.Apply (func : ℚ → ℚ) (c : Color) : Color := ⟨func c.r, func c.g, func c.b⟩

/-- `Color::ClampMin` (cyColor.h:105): `Apply([&limitMin](float v){ return cy::Max(v,limitMin); })`. -/
def Color.ClampMin (c : Color) (limitMin : ℚ := 0) : Color :=
  c.Apply (fun v => cyMax v limitMin)

/-- `Color::ClampMax` (cyColor.h:106): `Apply([&limitMax](float v){ return cy::Min(v,limitMax); })`. -/
def Color.ClampMax (c : Color) (limitMax : ℚ := 1) : Color :=
  c.Apply (fun v => cyMin v limitMax)

/-- `Color::Clamp` (cyColor.h:104): `ClampMin(limitMin); ClampMax(limitMax)`. -/
def Color.Clamp (c : Color) (limitMin : ℚ := 0) (limitMax : ℚ := 1) : Color :=
  (c.ClampMin limitMin).ClampMax limitMax

/-- Unary `Color::operator-` (cyColor.h:110): `Color(-r,-g,-b)`. -/
def Color.neg (c : Color) : Color := ⟨-c.r, -c.g, -c.b⟩

/-- `Color::operator+ (Color const &c)` (cyColor.h:113). -/
def Color.add (self c : Color) : Color := ⟨self.r + c.r, self.g + c.g, self.b + c.b⟩

/-- `Color::operator- (Color const &c)` (cyColor.h:114). -/
def Color.sub (self c : Color) : Color := ⟨self.r - c.r, self.g - c.g, self.b - c.b⟩

/-- `Color::operator* (Color const &c)` (cyColor.h:115). -/
def Color.mul (self c : Color) : Color := ⟨self.r * c.r, self.g * c.g, self.b * c.b⟩

/-- `Color::operator+ (float const &n)` (cyColor.h:117). -/
def Color.addScalar (c : Color) (n : ℚ) : Color := ⟨c.r + n, c.g + n, c.b + n⟩

/-- `Color::operator- (float const &n)` (cyColor.h:118). -/
def Color.subScalar (c : Color) (n : ℚ) : Color := ⟨c.r - n, c.g - n, c.b - n⟩

/-- `Color::operator* (float const &n)` (cyColor.h:119). -/
def Color.mulScalar (c : Color) (n : ℚ) : Color := ⟨c.r * n, c.g * n, c.b * n⟩

/-- `Color::operator/ (float const &n)` (cyColor.h:120). -/
def Color.divScalar (c : Color) (n : ℚ) : Color := ⟨c.r / n, c.g / n, c.b / n⟩

/-- Friend `operator+( float const& v, Color const &c )` (cyColor.h:55):
`return c+v`. -/
def Color.scalarAdd (v : ℚ) (c : Color) : Color := c.addScalar v

/-- Friend `operator-( float const& v, Color const &c )` (cyColor.h:56):
`return -(c-v)`. -/
def Color.scalarSub (v : ℚ) (c : Color) : Color := (c.subScalar v).neg

/-- Friend `operator*( float const& v, Color const &c )` (cyColor.h:57):
`return c*v`. -/
def Color.scalarMul (v : ℚ) (c : Color) : Color := c.mulScalar v

/-- `Color::operator==` (cyColor.h:133): `(c.r==r) && (c.g==g) && (c.b==b)`. -/
def Color.beq (self c : Color) : Bool :=
  (c.r == self.r) && (c.g == self.g) && (c.b == self.b)

/-- `Color::operator!=` (cyColor.h:134): `(c.r!=r) || (c.g!=g) || (c.b!=b)`. -/
def Color.bneq (self c : Color) : Bool :=
  (c.r != self.r) || (c.g != self.g) || (c.b != self.b)

/-- The per-channel lambda of `Color::Linear2sRGB` (cyColor.h:94):
`cl<0.0031308f ? cl*12.92f : powf(cl,0.41666f)*1.055f-0.055f`, with `powf`
abstracted as `pw`. -/
def linear2sRGBf (pw : ℚ → ℚ → ℚ) (cl : ℚ) : ℚ :=
  if cl < 0.0031308 then cl * 12.92 else pw cl 0.41666 * 1.055 - 0.055

/-- The per-channel lambda of `Color::sRGB2Linear` (cyColor.h:95):
`cs<=0.04045f ? cs/12.92f : powf( (cs+0.055f)/1.055f, 2.4f)`. -/
def sRGB2linearF (pw : ℚ → ℚ → ℚ) (cs : ℚ) : ℚ :=
  if cs ≤ 0.04045 then cs / 12.92 else pw ((cs + 0.055) / 1.055) 2.4

/-- `Color::Linear2sRGB` (cyColor.h:94): `Color(f(r),f(g),f(b))`. -/
def Color.Linear2sRGB (pw : ℚ → ℚ → ℚ) (c : Color) : Color :=
  ⟨linear2sRGBf pw c.r, linear2sRGBf pw c.g, linear2sRGBf pw c.b⟩

/-- `Color::sRGB2Linear` (cyColor.h:95): `Color(f(r),f(g),f(b))`. -/
def Color.sRGB2Linear (pw : ℚ → ℚ → ℚ) (c : Color) : Color :=
  ⟨sRGB2linearF pw c.r, sRGB2linearF pw c.g, sRGB2linearF pw c.b⟩

/-! ### ColorA members (cyColor.h:149-239) -/

/-- Constructor `ColorA( Color const &c, float _a=1 )` (cyColor.h:166). -/
def ColorA.ofColor (c : Color) (al : ℚ := 1) : ColorA := ⟨c.r, c.g, c.b, al⟩

/-- `ColorA::Sum` (cyColor.h:178): `r + g + b` — the alpha is excluded. -/
def ColorA.Sum (c : ColorA) : ℚ := c.r + c.g + c.b

/-- `ColorA::Gray` (cyColor.h:179): `Sum() / 3.0f`. -/
def ColorA.Gray (c : ColorA) : ℚ := c.Sum / 3

/-- `ColorA::Min` (cyColor.h:182):
`mrg = r<g ? r : g; mba = b<a ? b : a; mrg<mba ? mrg : mba`. -/
def ColorA.Min (c : ColorA) : ℚ :=
  let mrg := if c.r < c.g then c.r else c.g
  let mba := if c.b < c.a then c.b else c.a
  if mrg < mba then mrg else mba

/-- `ColorA::Max` (cyColor.h:183):
`mrg = r>g ? r : g; mba = b>a ? b : a; mrg>mba ? mrg : mba`. -/
def ColorA.Max (c : ColorA) : ℚ :=
  let mrg := if c.r > c.g then c.r else c.g
  let mba := if c.b > c.a then c.b else c.a
  if mrg > mba then mrg else mba

/-- Template member `ColorA::Apply` (cyColor.h:195):
`r=func(r); g=func(g); b=func(b)` — note that the alpha component is NOT
touched. -/
def ColorA.Apply (func : ℚ → ℚ) (c : ColorA) : ColorA :=
  ⟨func c.r, func c.g, func c.b, c.a⟩

/-- `ColorA::ClampMin` (cyColor.h:201): `Apply([&limitMin](float v){ return cy::Max(v,limitMin); })`. -/
def ColorA.ClampMin (c : ColorA) (limitMin : ℚ := 0) : ColorA :=
  c.Apply (fun v => cyMax v limitMin)

/-- `ColorA::ClampMax` (cyColor.h:202): `Apply([&limitMax](float v){ return cy::Min(v,limitMax); })`. -/
def ColorA.ClampMax (c : ColorA) (limitMax : ℚ := 1) : ColorA :=
  c.Apply (fun v => cyMin v limitMax)

/-- `ColorA::Clamp` (cyColor.h:200): `ClampMin(limitMin); ClampMax(limitMax)`. -/
def ColorA.Clamp (c : ColorA) (limitMin : ℚ := 0) (limitMax : ℚ := 1) : ColorA :=
  (c.ClampMin limitMin).ClampMax limitMax

/-- Unary `ColorA::operator-` (cyColor.h:206): `ColorA(-r,-g,-b,-a)`. -/
def ColorA.neg (c : ColorA) : ColorA := ⟨-c.r, -c.g, -c.b, -c.a⟩

/-- `ColorA::operator+ (float const &n)` (cyColor.h:213). -/
def ColorA.addScalar (c : ColorA) (n : ℚ) : ColorA := ⟨c.r + n, c.g + n, c.b + n, c.a + n⟩

/-- `ColorA::operator- (float const &n)` (cyColor.h:214). -/
def ColorA.subScalar (c : ColorA) (n : ℚ) : ColorA := ⟨c.r - n, c.g - n, c.b - n, c.a - n⟩

/-- `ColorA::operator* (float const &n)` (cyColor.h:215). -/
def ColorA.mulScalar (c : ColorA) (n : ℚ) : ColorA := ⟨c.r * n, c.g * n, c.b * n, c.a * n⟩

/-- `ColorA::operator/ (float const &n)` (cyColor.h:216). -/
def ColorA.divScalar (c : ColorA) (n : ℚ) : ColorA := ⟨c.r / n, c.g / n, c.b / n, c.a / n⟩

/-- Friend `operator+( float const &v, ColorA const &c )` (cyColor.h:151):
`return c+v`. -/
def ColorA.scalarAdd (v : ℚ) (c : ColorA) : ColorA := c.addScalar v

/-- Friend `operator-( float const &v, ColorA const &c )` (cyColor.h:152):
`return -(c-v)`. -/
def ColorA.scalarSub (v : ℚ) (c : ColorA) : ColorA := (c.subScalar v).neg

/-- Friend `operator*( float const &v, ColorA const &c )` (cyColor.h:153):
`return c*v`. -/
def ColorA.scalarMul (v : ℚ) (c : ColorA) : ColorA := c.mulScalar v

/-- `ColorA::operator==` (cyColor.h:229). -/
def ColorA.beq (self c : ColorA) : Bool :=
  (c.r == self.r) && (c.g == self.g) && (c.b == self.b) && (c.a == self.a)

/-- `ColorA::operator!=` (cyColor.h:230). -/
def ColorA.bneq (self c : ColorA) : Bool :=
  (c.r != self.r) || (c.g != self.g) || (c.b != self.b) || (c.a != self.a)

/-- `ColorA::Linear2sRGB` (cyColor.h:190):
`ColorA(Color(r,g,b).Linear2sRGB(), a)`. -/
def ColorA.Linear2sRGB (pw : ℚ → ℚ → ℚ) (c : ColorA) : ColorA :=
  ColorA.ofColor ((Color.mk c.r c.g c.b).Linear2sRGB pw) c.a

/-- `ColorA::sRGB2Linear` (cyColor.h:191):
`ColorA(Color(r,g,b).sRGB2Linear(), a)`. -/
def ColorA.sRGB2Linear (pw : ℚ → ℚ → ℚ) (c : ColorA) : ColorA :=
  ColorA.ofColor ((Color.mk c.r c.g c.b).sRGB2Linear pw) c.a

/-! ### Declared operator inventory

The source provides the scalar-with-type form only through the friend
operators declared inside each class body; `Color` and `ColorA` each declare
exactly three (cyColor.h:55-57 and cyColor.h:151-153): `+`, `-` and `*`.
No `operator/( float, Color )` or `operator/( float, ColorA )` exists
anywhere in the file. -/

/-- The four componentwise arithmetic operator kinds. -/
inductive BinOp where
  | add
  | sub
  | mul
  | div
deriving DecidableEq

/-- The scalar-with-type friend operators declared by `Color`
(cyColor.h:55-57): `operator+`, `operator-`, `operator*` — and no other. -/
def Color.scalarWithTypeOps : List BinOp := [BinOp.add, BinOp.sub, BinOp.mul]

/-- The scalar-with-type friend operators declared by `ColorA`
(cyColor.h:151-153): `operator+`, `operator-`, `operator*` — and no other. -/
def ColorA.scalarWithTypeOps : List BinOp := [BinOp.add, BinOp.sub, BinOp.mul]

/-! ### NaN-aware comparison model

The float comparison operators of the source follow IEEE-754 semantics, under
which a NaN component compares unequal to everything (`==` false, `!=` true).
To check the `==`/`!=` relationship in the presence of NaN, the scalar is
modelled as `Option ℚ` with `none` playing the role of NaN. -/

/-- IEEE `==` on scalars: NaN (`none`) compares unequal to everything,
itself included. -/
def feq : Option ℚ → Option ℚ → Bool
  | some x, some y => x == y
  | _, _ => false

/-- IEEE `!=` on scalars: true whenever either side is NaN. -/
def fne : Option ℚ → Option ℚ → Bool
  | some x, some y => x != y
  | _, _ => true

/-- `Color` over NaN-capable scalars. -/
structure ColorF where
  r : Option ℚ
  g : Option ℚ
  b : Option ℚ

/-- `Color::operator==` (cyColor.h:133) over NaN-capable scalars. -/
def ColorF.beq (self c : ColorF) : Bool :=
  feq c.r self.r && feq c.g self.g && feq c.b self.b

/-- `Color::operator!=` (cyColor.h:134) over NaN-capable scalars. -/
def ColorF.bneq (self c : ColorF) : Bool :=
  fne c.r self.r || fne c.g self.g || fne c.b self.b

/-- `ColorA` over NaN-capable scalars. -/
structure ColorAF where
  r : Option ℚ
  g : Option ℚ
  b : Option ℚ
  a : Option ℚ

/-- `ColorA::operator==` (cyColor.h:229) over NaN-capable scalars. -/
def ColorAF.beq (self c : ColorAF) : Bool :=
  feq c.r self.r && feq c.g self.g && feq c.b self.b && feq c.a self.a

/-- `ColorA::operator!=` (cyColor.h:230) over NaN-capable scalars. -/
def ColorAF.bneq (self c : ColorAF) : Bool :=
  fne c.r self.r || fne c.g self.g || fne c.b self.b || fne c.a self.a

/-- The float-to-byte conversion policy as the spec words it:
`clamp(trunc(f*255 + 0.5), 0, 255)`. -/
def floatToByteSpec (f : ℚ) : ℤ := min 255 (max 0 (truncQ (f * 255 + 0.5)))

/-- The per-channel sRGB encoding (OETF) exactly as the spec words it:
`c < 0.0031308 ? c*12.92 : pow(c, 0.41666)*1.055 - 0.055`. -/
def oetfSpec (pw : ℚ → ℚ → ℚ) (c : ℚ) : ℚ :=
  if c < 0.0031308 then c * 12.92 else pw c 0.41666 * 1.055 - 0.055

/-- The per-channel sRGB decoding (EOTF) exactly as the spec words it:
`c <= 0.04045 ? c/12.92 : pow((c+0.055)/1.055, 2.4)`. -/
def eotfSpec (pw : ℚ → ℚ → ℚ) (c : ℚ) : ℚ :=
  if c ≤ 0.04045 then c / 12.92 else pw ((c + 0.055) / 1.055) 2.4

/-! ## Theorems -/

lemma Color32.clampInt_eq_color24 : Color32.ClampInt = Color24.ClampInt := rfl

lemma Color32.floatToByte_eq_color24 : Color32.FloatToByte = Color24.FloatToByte := rfl

lemma Color24.clampInt_val (v : ℤ) :
    ((Color24.ClampInt v).val : ℤ) = min 255 (max 0 v) := by
  unfold Color24.ClampInt
  by_cases h1 : v < 0
  · rw [if_pos h1]; simp only [Fin.val_mk]; omega
  · rw [if_neg h1]
    by_cases h2 : v > 255
    · rw [if_pos h2]; simp only [Fin.val_mk]; omega
    · rw [if_neg h2]
      simp only [Fin.val_mk]
      have hlt : v.toNat < 256 := by omega
      rw [Nat.mod_eq_of_lt hlt]
      omega

lemma floatToByte_two : Color24.FloatToByte 2 = ⟨255, by norm_num⟩ := by
  unfold Color24.FloatToByte truncQ
  have h : (2 : ℚ) * 255 + 0.5 = 510.5 := by norm_num
  have hf : ⌊(510.5 : ℚ)⌋ = 510 := by
    rw [Int.floor_eq_iff]
    constructor <;> norm_num
  rw [h, if_pos (by norm_num), hf]
  unfold Color24.ClampInt
  rw [if_neg (by norm_num), if_pos (by norm_num)]

lemma floatToByte_byte_id (b : ℕ) (hb : b < 256) :
    Color24.FloatToByte ((b : ℚ) / 255) = ⟨b, hb⟩ := by
  unfold Color24.FloatToByte truncQ
  have h1 : ((b : ℚ) / 255) * 255 + 0.5 = (b : ℚ) + 0.5 := by
    field_simp
  have h0 : (0 : ℚ) ≤ (b : ℚ) + 0.5 := by positivity
  rw [h1, if_pos h0]
  have hhalf : ⌊(0.5 : ℚ)⌋ = 0 := by
    rw [Int.floor_eq_zero_iff, Set.mem_Ico]
    constructor <;> norm_num
  have hf : ⌊(b : ℚ) + 0.5⌋ = (b : ℤ) := by
    have hc : ((b : ℚ) + 0.5) = ((b : ℤ) : ℚ) + 0.5 := by push_cast; ring
    rw [hc, Int.floor_int_add, hhalf, add_zero]
  rw [hf]
  unfold Color24.ClampInt
  rw [if_neg (by omega), if_neg (by omega)]
  apply Fin.ext
  simp only [Fin.val_mk]
  omega

/-- C1: for every float input `f` (values outside `[0,1]` included), the
float-to-byte policy shared by `Color24` and `Color32` returns
`clamp(trunc(f*255 + 0.5), 0, 255)` as an 8-bit unsigned integer: it is a
total function, its value always lies in `[0, 255]` (the `uint8_t` cast never
wraps), the `Color32(ColorA)` constructor applies it to r, g, b and alpha
alike, and an input component of `2.0` yields the byte `255`. -/
theorem claim1_floatToByte_policy :
    (∀ f : ℚ,
        ((Color24.FloatToByte f).val : ℤ) = floatToByteSpec f ∧
        ((Color32.FloatToByte f).val : ℤ) = floatToByteSpec f ∧
        (Color24.FloatToByte f).val ≤ 255 ∧ (Color32.FloatToByte f).val ≤ 255) ∧
    (∀ c : ColorA, Color32.ofColorA c =
      ⟨Color32.FloatToByte c.r, Color32.FloatToByte c.g, Color32.FloatToByte c.b,
       Color32.FloatToByte c.a⟩) ∧
    Color24.FloatToByte 2 = ⟨255, by norm_num⟩ ∧
    Color32.FloatToByte 2 = ⟨255, by norm_num⟩ := by
  refine ⟨fun f => ?_, fun c => rfl, floatToByte_two,
    by rw [Color32.floatToByte_eq_color24]; exact floatToByte_two⟩
  have h24 : ((Color24.FloatToByte f).val : ℤ) = floatToByteSpec f := by
    unfold Color24.FloatToByte floatToByteSpec
    exact Color24.clampInt_val _
  refine ⟨h24, ?_, by omega, ?_⟩
  · rw [Color32.floatToByte_eq_color24]; exact h24
  · rw [Color32.floatToByte_eq_color24]; omega

/-- C2: for every byte value `b` in `[0,255]`, converting it to float by
dividing by 255 (as `ToColor` does) and back through the `FloatToByte`
policy reproduces `b` exactly; consequently `Color24(Color24::ToColor())`
is the identity on `Color24`. -/
theorem claim2_byte_float_roundtrip :
    (∀ b : Fin 256, Color24.FloatToByte ((b.val : ℚ) / 255) = b) ∧
    (∀ c : Color24, Color24.ofColor c.ToColor = c) := by
  constructor
  · intro b
    have h := floatToByte_byte_id b.val b.isLt
    simpa [Fin.eta] using h
  · intro c
    cases c with
    | mk r g b =>
      unfold Color24.ofColor Color24.ToColor
      simp only
      rw [floatToByte_byte_id r.val r.isLt, floatToByte_byte_id g.val g.isLt,
          floatToByte_byte_id b.val b.isLt]

/-- C3 counterexample: with bounds `0 ≤ 1`, clamping the `ColorA` value
`(1/2, 1/2, 1/2, 2)` to `[0, 1]` leaves the alpha component at `2`, outside
`[0, 1]` — `ColorA::Apply`, through which the clamps are implemented, never
touches the alpha field. -/
theorem claim3_counterexample :
    (0 : ℚ) ≤ 1 ∧
    (ColorA.Clamp ⟨1/2, 1/2, 1/2, 2⟩ 0 1).a = 2 ∧
    ¬ (ColorA.Clamp ⟨1/2, 1/2, 1/2, 2⟩ 0 1).a ≤ 1 := by
  refine ⟨by norm_num, rfl, ?_⟩
  show ¬ (2 : ℚ) ≤ 1
  norm_num

/-- C3 (amended): for every `ColorA` value and bounds
`limitMin ≤ limitMax`, `Clamp` is `ClampMin` followed by `ClampMax`
(elementwise max against `limitMin`, then elementwise min against
`limitMax`), and afterwards the r, g and b components lie within
`[limitMin, limitMax]`; the alpha component is returned unchanged — it is
not clamped, because `ColorA::Apply` skips the alpha field. -/
theorem claim3_clamp_rgb_only (c : ColorA) (mn mx : ℚ) (h : mn ≤ mx) :
    c.Clamp mn mx = (c.ClampMin mn).ClampMax mx ∧
    (mn ≤ (c.Clamp mn mx).r ∧ (c.Clamp mn mx).r ≤ mx) ∧
    (mn ≤ (c.Clamp mn mx).g ∧ (c.Clamp mn mx).g ≤ mx) ∧
    (mn ≤ (c.Clamp mn mx).b ∧ (c.Clamp mn mx).b ≤ mx) ∧
    (c.Clamp mn mx).a = c.a := by
  have key : ∀ v : ℚ, mn ≤ cyMin (cyMax v mn) mx ∧ cyMin (cyMax v mn) mx ≤ mx := by
    intro v
    unfold cyMin cyMax
    exact ⟨le_min (le_max_right v mn) h, min_le_right _ _⟩
  exact ⟨rfl, key c.r, key c.g, key c.b, rfl⟩

/-- Witness for C3 (amended): the amended statement instantiated at the
concrete value `(-1, 1/2, 2, 5)` with bounds `0 ≤ 1`, together with the
fully evaluated clamp result `(0, 1/2, 1, 5)`. -/
theorem claim3_clamp_rgb_only_witness :
    (0 : ℚ) ≤ 1 ∧
    ColorA.Clamp ⟨-1, 1/2, 2, 5⟩ 0 1 = ⟨0, 1/2, 1, 5⟩ ∧
    (ColorA.Clamp ⟨-1, 1/2, 2, 5⟩ 0 1 =
        ((ColorA.mk (-1) (1/2) 2 5).ClampMin 0).ClampMax 1 ∧
      (0 ≤ (ColorA.Clamp ⟨-1, 1/2, 2, 5⟩ 0 1).r ∧ (ColorA.Clamp ⟨-1, 1/2, 2, 5⟩ 0 1).r ≤ 1) ∧
      (0 ≤ (ColorA.Clamp ⟨-1, 1/2, 2, 5⟩ 0 1).g ∧ (ColorA.Clamp ⟨-1, 1/2, 2, 5⟩ 0 1).g ≤ 1) ∧
      (0 ≤ (ColorA.Clamp ⟨-1, 1/2, 2, 5⟩ 0 1).b ∧ (ColorA.Clamp ⟨-1, 1/2, 2, 5⟩ 0 1).b ≤ 1) ∧
      (ColorA.Clamp ⟨-1, 1/2, 2, 5⟩ 0 1).a = (ColorA.mk (-1) (1/2) 2 5).a) :=
  ⟨by norm_num,
   by norm_num [ColorA.Clamp, ColorA.ClampMin, ColorA.ClampMax, ColorA.Apply,
     cyMax, cyMin, min_def, max_def, ColorA.mk.injEq],
   claim3_clamp_rgb_only ⟨-1, 1/2, 2, 5⟩ 0 1 (by norm_num)⟩

lemma gray_close (s : ℕ) : |(((s + 1) / 3 : ℕ) : ℚ) - (s : ℚ) / 3| ≤ 1/3 := by
  have h1 : 3 * ((s + 1) / 3) ≤ s + 1 := by omega
  have h2 : s + 1 ≤ 3 * ((s + 1) / 3) + 2 := by omega
  have h1q : (3 : ℚ) * (((s + 1) / 3 : ℕ) : ℚ) ≤ (s : ℚ) + 1 := by exact_mod_cast h1
  have h2q : (s : ℚ) + 1 ≤ 3 * (((s + 1) / 3 : ℕ) : ℚ) + 2 := by exact_mod_cast h2
  rw [abs_le]
  constructor <;> linarith

lemma nearest_of_close (g : ℕ) (k : ℤ) (x : ℚ) (h : |(g : ℚ) - x| ≤ 1/3) :
    |(g : ℚ) - x| ≤ |(k : ℚ) - x| := by
  rcases eq_or_ne k (g : ℤ) with hk | hk
  · subst hk
    push_cast
    exact le_refl _
  · have hzk : (1 : ℤ) ≤ |k - (g : ℤ)| := Int.one_le_abs (sub_ne_zero.mpr hk)
    have h1 : (1 : ℚ) ≤ |(k : ℚ) - (g : ℚ)| := by
      have hq : ((1 : ℤ) : ℚ) ≤ ((|k - (g : ℤ)| : ℤ) : ℚ) := Int.cast_le.mpr hzk
      push_cast at hq
      exact hq
    have htri : |(k : ℚ) - (g : ℚ)| ≤ |(k : ℚ) - x| + |x - (g : ℚ)| := abs_sub_le _ _ _
    have hcomm : |x - (g : ℚ)| = |(g : ℚ) - x| := abs_sub_comm _ _
    linarith

/-- C4: for every `Color24` and `Color32` value, `Gray()` is `(Sum()+1)/3`
under truncating integer division, which is the integer nearest to `Sum/3`;
the value always fits in a byte (the `uint8_t` cast never wraps), and
`Color24(255,255,255).Gray()` is `255`. -/
theorem claim4_gray_rounding :
    (∀ c : Color24,
        c.Gray.val = (c.Sum + 1) / 3 ∧
        (∀ k : ℤ, |(c.Gray.val : ℚ) - (c.Sum : ℚ) / 3| ≤ |(k : ℚ) - (c.Sum : ℚ) / 3|) ∧
        c.Gray.val ≤ 255) ∧
    (∀ c : Color32,
        c.Gray.val = (c.Sum + 1) / 3 ∧
        (∀ k : ℤ, |(c.Gray.val : ℚ) - (c.Sum : ℚ) / 3| ≤ |(k : ℚ) - (c.Sum : ℚ) / 3|) ∧
        c.Gray.val ≤ 255) ∧
    (Color24.mk 255 255 255).Gray = ⟨255, by norm_num⟩ := by
  refine ⟨fun c => ?_, fun c => ?_, by decide⟩
  · have hr := c.r.isLt
    have hg := c.g.isLt
    have hb := c.b.isLt
    have hs : c.Sum ≤ 765 := by unfold Color24.Sum; omega
    have hval : c.Gray.val = (c.Sum + 1) / 3 := by
      show ((c.Sum + 1) / 3) % 256 = (c.Sum + 1) / 3
      omega
    refine ⟨hval, fun k => ?_, by omega⟩
    rw [hval]
    exact nearest_of_close _ k _ (gray_close c.Sum)
  · have hr := c.r.isLt
    have hg := c.g.isLt
    have hb := c.b.isLt
    have hs : c.Sum ≤ 765 := by unfold Color32.Sum; omega
    have hval : c.Gray.val = (c.Sum + 1) / 3 := by
      show ((c.Sum + 1) / 3) % 256 = (c.Sum + 1) / 3
      omega
    refine ⟨hval, fun k => ?_, by omega⟩
    rw [hval]
    exact nearest_of_close _ k _ (gray_close c.Sum)

/-- C5 counterexample: the scalar-with-type operator inventories of `Color`
(cyColor.h:55-57) and `ColorA` (cyColor.h:151-153) do not contain division:
only `+`, `-` and `*` are declared as commuted friend operators, so the
claimed `v / c` form does not exist. -/
theorem claim5_counterexample :
    BinOp.div ∉ Color.scalarWithTypeOps ∧ BinOp.div ∉ ColorA.scalarWithTypeOps := by
  constructor <;> decide

/-- C5 (amended): the scalar-with-type operators provided for `Color` and
`ColorA` are exactly `+`, `-` and `*` (division is not provided in this
form); each is componentwise — `v+c` has components `v+c_i`, `v-c` has
components `v-c_i`, `v*c` has components `v*c_i` — and scalar
multiplication commutes: `2.0f * Color(1,2,3) == Color(1,2,3) * 2.0f ==
Color(2,4,6)`. -/
theorem claim5_scalar_ops (v : ℚ) (c : Color) (d : ColorA) :
    Color.scalarWithTypeOps = [BinOp.add, BinOp.sub, BinOp.mul] ∧
    ColorA.scalarWithTypeOps = [BinOp.add, BinOp.sub, BinOp.mul] ∧
    Color.scalarAdd v c = ⟨v + c.r, v + c.g, v + c.b⟩ ∧
    Color.scalarSub v c = ⟨v - c.r, v - c.g, v - c.b⟩ ∧
    Color.scalarMul v c = ⟨v * c.r, v * c.g, v * c.b⟩ ∧
    Color.scalarMul v c = c.mulScalar v ∧
    ColorA.scalarAdd v d = ⟨v + d.r, v + d.g, v + d.b, v + d.a⟩ ∧
    ColorA.scalarSub v d = ⟨v - d.r, v - d.g, v - d.b, v - d.a⟩ ∧
    ColorA.scalarMul v d = ⟨v * d.r, v * d.g, v * d.b, v * d.a⟩ ∧
    ColorA.scalarMul v d = d.mulScalar v ∧
    Color.scalarMul 2 ⟨1, 2, 3⟩ = Color.mulScalar ⟨1, 2, 3⟩ 2 ∧
    Color.mulScalar ⟨1, 2, 3⟩ 2 = ⟨2, 4, 6⟩ := by
  refine ⟨rfl, rfl, ?_, ?_, ?_, rfl, ?_, ?_, ?_, rfl, rfl, ?_⟩ <;>
    simp only [Color.scalarAdd, Color.addScalar, Color.scalarSub, Color.subScalar,
      Color.neg, Color.scalarMul, Color.mulScalar, ColorA.scalarAdd, ColorA.addScalar,
      ColorA.scalarSub, ColorA.subScalar, ColorA.neg, ColorA.scalarMul, ColorA.mulScalar,
      Color.mk.injEq, ColorA.mk.injEq] <;>
    and_intros <;> ring

/-- C6: for every `Color` and `ColorA` value (and any implementation `pw` of
`powf`), `Linear2sRGB` applies the spec's OETF formula per channel to r, g,
b and `sRGB2Linear` applies the spec's EOTF formula per channel; the
`ColorA` versions return the original alpha component unmodified. -/
theorem claim6_srgb_conversion (pw : ℚ → ℚ → ℚ) (c : Color) (d : ColorA) :
    (c.Linear2sRGB pw).r = oetfSpec pw c.r ∧ (c.Linear2sRGB pw).g = oetfSpec pw c.g ∧
    (c.Linear2sRGB pw).b = oetfSpec pw c.b ∧
    (c.sRGB2Linear pw).r = eotfSpec pw c.r ∧ (c.sRGB2Linear pw).g = eotfSpec pw c.g ∧
    (c.sRGB2Linear pw).b = eotfSpec pw c.b ∧
    (d.Linear2sRGB pw).r = oetfSpec pw d.r ∧ (d.Linear2sRGB pw).g = oetfSpec pw d.g ∧
    (d.Linear2sRGB pw).b = oetfSpec pw d.b ∧ (d.Linear2sRGB pw).a = d.a ∧
    (d.sRGB2Linear pw).r = eotfSpec pw d.r ∧ (d.sRGB2Linear pw).g = eotfSpec pw d.g ∧
    (d.sRGB2Linear pw).b = eotfSpec pw d.b ∧ (d.sRGB2Linear pw).a = d.a :=
  ⟨rfl, rfl, rfl, rfl, rfl, rfl, rfl, rfl, rfl, rfl, rfl, rfl, rfl, rfl⟩

/-- C7: for every `Color24` value and every alpha byte, converting to
`Color32` and back to `Color24` reproduces the original r, g, b bytes
exactly; both byte-to-byte conversions copy the integer component values,
with no rescaling, and the alpha byte is the one given. -/
theorem claim7_byte_byte_roundtrip (c : Color24) (al : Fin 256) :
    Color24.ofColor32 (Color32.ofColor24 c al) = c ∧
    (Color32.ofColor24 c al).r = c.r ∧ (Color32.ofColor24 c al).g = c.g ∧
    (Color32.ofColor24 c al).b = c.b ∧ (Color32.ofColor24 c al).a = al :=
  ⟨rfl, rfl, rfl, rfl, rfl⟩

lemma ite_lt_eq_min (x y : ℚ) : (if x < y then x else y) = min x y := by
  by_cases h : x < y
  · rw [if_pos h, min_eq_left h.le]
  · rw [if_neg h, min_eq_right (le_of_not_lt h)]

lemma ite_gt_eq_max (x y : ℚ) : (if x > y then x else y) = max x y := by
  by_cases h : x > y
  · rw [if_pos h, max_eq_left h.le]
  · rw [if_neg h, max_eq_right (le_of_not_gt h)]

/-- C8: for every `ColorA` value, `Sum()` is `r+g+b` with the alpha
component excluded, `Gray()` is `Sum()/3`, and `Min()`/`Max()` are the
minimum/maximum over all four stored components, the alpha included. -/
theorem claim8_colorA_queries (c : ColorA) :
    c.Sum = c.r + c.g + c.b ∧
    c.Gray = c.Sum / 3 ∧
    c.Min = min (min c.r c.g) (min c.b c.a) ∧
    c.Max = max (max c.r c.g) (max c.b c.a) ∧
    (c.Min ≤ c.r ∧ c.Min ≤ c.g ∧ c.Min ≤ c.b ∧ c.Min ≤ c.a) ∧
    (c.r ≤ c.Max ∧ c.g ≤ c.Max ∧ c.b ≤ c.Max ∧ c.a ≤ c.Max) := by
  have hmin : c.Min = min (min c.r c.g) (min c.b c.a) := by
    unfold ColorA.Min
    simp only [ite_lt_eq_min]
  have hmax : c.Max = max (max c.r c.g) (max c.b c.a) := by
    unfold ColorA.Max
    simp only [ite_gt_eq_max]
  refine ⟨rfl, rfl, hmin, hmax, ?_, ?_⟩
  · rw [hmin]
    exact ⟨le_trans (min_le_left _ _) (min_le_left _ _),
      le_trans (min_le_left _ _) (min_le_right _ _),
      le_trans (min_le_right _ _) (min_le_left _ _),
      le_trans (min_le_right _ _) (min_le_right _ _)⟩
  · rw [hmax]
    exact ⟨le_trans (le_max_left _ _) (le_max_left _ _),
      le_trans (le_max_right _ _) (le_max_left _ _),
      le_trans (le_max_left _ _) (le_max_right _ _),
      le_trans (le_max_right _ _) (le_max_right _ _)⟩

lemma fne_eq_not_feq (x y : Option ℚ) : fne x y = !(feq x y) := by
  cases x <;> cases y <;> simp [fne, feq, bne]

/-- C9: for each of the four types, `operator!=` is the exact boolean
negation of `operator==`: the disjunction of componentwise `!=` equals the
negation of the conjunction of componentwise `==`. This also holds over
NaN-capable scalars (where it follows from IEEE scalar `!=` being the
negation of scalar `==`, NaN included); in particular a color holding a
NaN component is reported unequal to itself consistently — `==` false and
`!=` true. -/
theorem claim9_neq_is_negation_of_eq :
    (∀ x y : Color, x.bneq y = !(x.beq y)) ∧
    (∀ x y : ColorA, x.bneq y = !(x.beq y)) ∧
    (∀ x y : Color24, x.bneq y = !(x.beq y)) ∧
    (∀ x y : Color32, x.bneq y = !(x.beq y)) ∧
    (∀ x y : ColorF, x.bneq y = !(x.beq y)) ∧
    (∀ x y : ColorAF, x.bneq y = !(x.beq y)) ∧
    ColorF.beq ⟨none, some 0, some 0⟩ ⟨none, some 0, some 0⟩ = false ∧
    ColorF.bneq ⟨none, some 0, some 0⟩ ⟨none, some 0, some 0⟩ = true := by
  refine ⟨fun x y => ?_, fun x y => ?_, fun x y => ?_, fun x y => ?_,
    fun x y => ?_, fun x y => ?_, rfl, rfl⟩ <;>
    simp only [Color.bneq, Color.beq, ColorA.bneq, ColorA.beq, Color24.bneq, Color24.beq,
      Color32.bneq, Color32.beq, ColorF.bneq, ColorF.beq, ColorAF.bneq, ColorAF.beq,
      fne_eq_not_feq, bne, Bool.not_and]

lemma byte_div_unit (n : ℕ) (h : n < 256) : 0 ≤ (n : ℚ) / 255 ∧ (n : ℚ) / 255 ≤ 1 := by
  constructor
  · positivity
  · rw [div_le_one (by norm_num)]
    exact_mod_cast Nat.le_of_lt_succ (by omega : n < 256)

/-- C10: for every `Color24` and `Color32` value, the byte-to-float
conversions `ToColor` and `ToColorA` return components — the converted
alpha of `Color32` included — that lie in the closed interval `[0, 1]`
(being exact rationals, they are in particular finite). -/
theorem claim10_byte_to_float_range (c : Color24) (d : Color32) :
    (0 ≤ c.ToColor.r ∧ c.ToColor.r ≤ 1) ∧
    (0 ≤ c.ToColor.g ∧ c.ToColor.g ≤ 1) ∧
    (0 ≤ c.ToColor.b ∧ c.ToColor.b ≤ 1) ∧
    (0 ≤ c.ToColorA.r ∧ c.ToColorA.r ≤ 1) ∧
    (0 ≤ c.ToColorA.g ∧ c.ToColorA.g ≤ 1) ∧
    (0 ≤ c.ToColorA.b ∧ c.ToColorA.b ≤ 1) ∧
    (0 ≤ c.ToColorA.a ∧ c.ToColorA.a ≤ 1) ∧
    (0 ≤ d.ToColor.r ∧ d.ToColor.r ≤ 1) ∧
    (0 ≤ d.ToColor.g ∧ d.ToColor.g ≤ 1) ∧
    (0 ≤ d.ToColor.b ∧ d.ToColor.b ≤ 1) ∧
    (0 ≤ d.ToColorA.r ∧ d.ToColorA.r ≤ 1) ∧
    (0 ≤ d.ToColorA.g ∧ d.ToColorA.g ≤ 1) ∧
    (0 ≤ d.ToColorA.b ∧ d.ToColorA.b ≤ 1) ∧
    (0 ≤ d.ToColorA.a ∧ d.ToColorA.a ≤ 1) :=
  ⟨byte_div_unit _ c.r.isLt, byte_div_unit _ c.g.isLt, byte_div_unit _ c.b.isLt,
   byte_div_unit _ c.r.isLt, byte_div_unit _ c.g.isLt, byte_div_unit _ c.b.isLt,
   ⟨by show (0 : ℚ) ≤ 1; norm_num, by show (1 : ℚ) ≤ 1; norm_num⟩,
   byte_div_unit _ d.r.isLt, byte_div_unit _ d.g.isLt, byte_div_unit _ d.b.isLt,
   byte_div_unit _ d.r.isLt, byte_div_unit _ d.g.isLt, byte_div_unit _ d.b.isLt,
   byte_div_unit _ d.a.isLt⟩

end CyColor
